import Mathlib

/-!
Shallow embedding of the NEIS service (src/main.py, src/utils.py, src/models.py).

Modelling choices:
* Time is an integer timestamp (unit: minutes, matching KEY_EXPIRATION_MINUTES).
* Python floats are modelled as rationals (ℚ); all values involved are exact decimals.
* The two global mutable dicts (API_KEYS, MANUAL_EMISSIONS_OVERRIDE) are modelled
  as association lists passed explicitly; dict assignment removes any previous
  binding for the key before prepending the new one, so key lists stay duplicate-free.
* HTTPException is modelled as Except Nat carrying the status code (401/404/400).
* pandas tables are lists of row structures.  load_csv_safe (utils.py) always
  produces every expected column, so loaded rows carry plain String/ℚ fields;
  raw CSV rows carry Option fields (none = missing cell / NaN).
-/

/-! ### Token Authority (main.py lines 41-63) -/

/-- API_KEYS : Dict[str, datetime] — token value mapped to its expiry instant. -/
abbrev KeyStore := List (String × ℤ)

/-- KEY_EXPIRATION_MINUTES = 30 (main.py line 42). -/
def KEY_EXPIRATION_MINUTES : ℤ := 30

/-- generate_key (main.py lines 45-53): store a fresh token with
expiry now + 30 minutes and return the token with its expiry.
The random token value is a parameter; the ISO-8601 formatting of the
expiry in the HTTP response is not modelled. -/
def generate_key (keys : KeyStore) (new_key : String) (now : ℤ) :
    KeyStore × (String × ℤ) :=
  let expires_at := now + KEY_EXPIRATION_MINUTES
  ((new_key, expires_at) :: keys.filter (fun kv => !(kv.1 == new_key)),
   (new_key, expires_at))

/-- The sweep inside verify_api_key (main.py lines 58-60): delete every
entry whose expiry is strictly before now. -/
def sweep (keys : KeyStore) (now : ℤ) : KeyStore :=
  keys.filter (fun kv => !(decide (kv.2 < now)))

/-- verify_api_key (main.py lines 56-63): sweep expired tokens, then check
membership of the presented key.  Returns the post-sweep store and whether
the key was accepted (false = HTTP 401). -/
def verify_api_key (keys : KeyStore) (now : ℤ) (x_api_key : String) :
    KeyStore × Bool :=
  let keys' := sweep keys now
  (keys', keys'.any (fun kv => kv.1 == x_api_key))

/-! ### Dataset Provider (utils.py) -/

/-- A raw generation.csv row; fields are none when the cell (or whole column)
is missing.  GEN_COLUMNS = ["date", "generation_mwh", "county"]; the date
column is never read by the handlers and is not modelled. -/
structure RawGenRow where
  county : Option String
  generation_mwh : Option ℚ
deriving DecidableEq

/-- A generation row after load_csv_safe: every expected column present. -/
structure GenRow where
  county : String
  generation_mwh : ℚ
deriving DecidableEq

/-- A raw emissions.csv row (EM_COLUMNS = ["date", "emissions_tCO2", "county"]). -/
structure RawEmRow where
  county : Option String
  emissions_tCO2 : Option ℚ
deriving DecidableEq

/-- An emissions row after load_csv_safe. -/
structure EmRow where
  county : String
  emissions_tCO2 : ℚ
deriving DecidableEq

/-- load_csv_safe (utils.py lines 11-34) for generation.csv: a missing file
(none) degrades to an empty table with the expected columns; missing numeric
cells become 0 and missing string cells become "" (the fillna loop). -/
def load_gen_csv_safe (file : Option (List RawGenRow)) : List GenRow :=
  match file with
  | none => []
  | some rows => rows.map (fun r => ⟨r.county.getD "", r.generation_mwh.getD 0⟩)

/-- load_csv_safe for emissions.csv. -/
def load_em_csv_safe (file : Option (List RawEmRow)) : List EmRow :=
  match file with
  | none => []
  | some rows => rows.map (fun r => ⟨r.county.getD "", r.emissions_tCO2.getD 0⟩)

/-! ### Aggregation (main.py lines 100-120, 152-160, 196-198) -/

/-- The keys of counties_data (main.py line 103):
GEN_DF["county"].dropna().unique().  After load_csv_safe the county column
holds no NaN (missing values were filled with ""), so dropna removes nothing
and the keys are the distinct county values of the loaded table. -/
def known_counties (gen_df : List GenRow) : List String :=
  (gen_df.map (fun r => r.county)).dedup

/-- gen_total for one county (main.py lines 104-106). -/
def county_total_generation (gen_df : List GenRow) (name : String) : ℚ :=
  ((gen_df.filter (fun r => r.county == name)).map (fun r => r.generation_mwh)).sum

/-- float(GEN_DF["generation_mwh"].sum()) (main.py line 160): every row of the
generation table contributes, whatever its county value. -/
def national_total_generation (gen_df : List GenRow) : ℚ :=
  (gen_df.map (fun r => r.generation_mwh)).sum

/-- float(EM_DF["emissions_tCO2"].sum()) (main.py line 153).  load_csv_safe
guarantees the column exists, so the `else 0.0` arm of line 155 is dead. -/
def national_total_emissions_calculated (em_df : List EmRow) : ℚ :=
  (em_df.map (fun r => r.emissions_tCO2)).sum

/-- float(EM_DF[EM_DF["county"] == name]["emissions_tCO2"].sum()) (line 197). -/
def county_emissions_calculated (em_df : List EmRow) (name : String) : ℚ :=
  ((em_df.filter (fun r => r.county == name)).map (fun r => r.emissions_tCO2)).sum

/-! ### Override Store and its write endpoint (main.py lines 95, 213-238) -/

/-- MANUAL_EMISSIONS_OVERRIDE : Dict[str, float]. -/
abbrev OverrideStore := List (String × ℚ)

/-- The JSON body returned by set_manual_emissions on success
(main.py lines 234-238): fields status, message, value. -/
structure SetEmissionsResponse where
  status : String
  message : String
  value : ℚ
deriving DecidableEq

/-- set_manual_emissions (main.py lines 218-238): reject a negative value with
HTTP 400 before any mutation, otherwise overwrite the scope's binding and
return the confirmation body.  Returns the post-call store and the outcome. -/
def set_manual_emissions (store : OverrideStore) (scope : String) (value : ℚ) :
    OverrideStore × Except Nat SetEmissionsResponse :=
  if value < 0 then (store, .error 400)
  else ((scope, value) :: store.filter (fun p => !(p.1 == scope)),
        .ok ⟨"success", "Manual emissions override set for " ++ scope, value⟩)

/-! ### Summary handlers (main.py lines 126-207) -/

/-- The data object of the national summary response (main.py lines 159-164). -/
structure NationalData where
  total_generation : ℚ
  total_emissions : ℚ
  emissions_source : String
  renewable_share : ℚ
deriving DecidableEq

/-- national_summary (main.py lines 132-166), after the auth dependency has
accepted the request.  renewable_share is the fixed placeholder 65.5 = 131/2. -/
def national_summary (gen_df : List GenRow) (em_df : List EmRow)
    (store : OverrideStore) (estimate_emissions use_manual_override : Bool) :
    NationalData :=
  let em : ℚ × String :=
    if estimate_emissions = false then (0, "disabled")
    else if use_manual_override && (List.lookup "national" store).isSome then
      ((List.lookup "national" store).getD 0, "user_entered")
    else (national_total_emissions_calculated em_df, "calculated")
  { total_generation := national_total_generation gen_df
    total_emissions := em.1
    emissions_source := em.2
    renewable_share := 131 / 2 }

/-- The data object of the county response (main.py lines 201-205).  The
by_source breakdown attached alongside these fields is not consulted by any
resolution decision and is not modelled. -/
structure CountyData where
  county : String
  total_generation : ℚ
  total_emissions : ℚ
  emissions_source : String
deriving DecidableEq

/-- county_insights (main.py lines 178-207), after the auth dependency has
accepted the request.  counties_data.get(name) is None exactly when name is
not a key (the stored dicts are non-empty, hence truthy), so `if not county`
is a membership test against the enumerated counties. -/
def county_insights (gen_df : List GenRow) (em_df : List EmRow)
    (store : OverrideStore) (name : String)
    (estimate_emissions use_manual_override : Bool) : Except Nat CountyData :=
  if !((known_counties gen_df).contains name) then .error 404
  else
    let em : ℚ × String :=
      if estimate_emissions = false then (0, "disabled")
      else if use_manual_override && (List.lookup name store).isSome then
        ((List.lookup name store).getD 0, "user_entered")
      else (county_emissions_calculated em_df name, "calculated")
    .ok { county := name
          total_generation := county_total_generation gen_df name
          total_emissions := em.1
          emissions_source := em.2 }

/-- A full county request: the verify_api_key dependency runs first
(Depends(verify_api_key), main.py line 176) and an invalid or expired key
aborts with HTTP 401 before the handler body executes. -/
def county_request (keys : KeyStore) (now : ℤ) (x_api_key : String)
    (gen_df : List GenRow) (em_df : List EmRow) (store : OverrideStore)
    (name : String) (estimate_emissions use_manual_override : Bool) :
    KeyStore × Except Nat CountyData :=
  let v := verify_api_key keys now x_api_key
  if !v.2 then (v.1, .error 401)
  else (v.1, county_insights gen_df em_df store name
              estimate_emissions use_manual_override)

/-! ### Helper lemmas -/

/-- Surviving the sweep is exactly: present before and not strictly expired. -/
theorem mem_sweep_iff (keys : KeyStore) (now : ℤ) (kv : String × ℤ) :
    kv ∈ sweep keys now ↔ kv ∈ keys ∧ ¬ (kv.2 < now) := by
  simp [sweep, List.mem_filter]

/-- verify_api_key accepts exactly the keys holding a not-yet-expired entry. -/
theorem verify_valid_iff (keys : KeyStore) (now : ℤ) (t : String) :
    (verify_api_key keys now t).2 = true ↔ ∃ e : ℤ, (t, e) ∈ keys ∧ now ≤ e := by
  show ((sweep keys now).any (fun kv => kv.1 == t)) = true ↔ _
  rw [List.any_eq_true]
  constructor
  · rintro ⟨⟨a, b⟩, hmem, hbeq⟩
    rw [mem_sweep_iff] at hmem
    have ha : a = t := by simpa using hbeq
    subst ha
    exact ⟨b, hmem.1, by omega⟩
  · rintro ⟨e, hmem, hle⟩
    refine ⟨(t, e), ?_, by simp⟩
    rw [mem_sweep_iff]
    exact ⟨hmem, by omega⟩

/-- A successful lookup names an entry of the store. -/
theorem mem_of_lookup_eq_some (t : String) (e : ℤ) :
    ∀ keys : KeyStore, List.lookup t keys = some e → (t, e) ∈ keys := by
  intro keys
  induction keys with
  | nil => intro h; simp at h
  | cons kv rest ih =>
    obtain ⟨a, b⟩ := kv
    rw [List.lookup_cons]
    by_cases hat : t = a
    · subst hat
      simp only [beq_self_eq_true]
      intro h
      obtain rfl : b = e := by injection h
      exact List.mem_cons_self _ _
    · simp only [beq_false_of_ne hat]
      intro h
      exact List.mem_cons_of_mem _ (ih h)

/-- On a duplicate-free store (every store reachable by the modelled dict
operations), lookup success is the same as membership. -/
theorem lookup_eq_some_iff_of_nodup (t : String) (e : ℤ) :
    ∀ keys : KeyStore, (keys.map Prod.fst).Nodup →
      (List.lookup t keys = some e ↔ (t, e) ∈ keys) := by
  intro keys
  induction keys with
  | nil => intro _; simp
  | cons kv rest ih =>
    intro hnd
    obtain ⟨a, b⟩ := kv
    rw [List.map_cons, List.nodup_cons] at hnd
    rw [List.lookup_cons]
    by_cases hat : t = a
    · subst hat
      simp only [beq_self_eq_true]
      constructor
      · intro h
        obtain rfl : b = e := by injection h
        exact List.mem_cons_self _ _
      · intro h
        rcases List.mem_cons.mp h with h1 | h2
        · obtain rfl : b = e := by
            have := congrArg Prod.snd h1
            simpa using this.symm
          rfl
        · exact absurd (List.mem_map_of_mem Prod.fst h2) (by simpa using hnd.1)
    · simp only [beq_false_of_ne hat]
      rw [ih hnd.2]
      constructor
      · exact fun h => List.mem_cons_of_mem _ h
      · intro h
        rcases List.mem_cons.mp h with h1 | h2
        · exact absurd (by simpa using congrArg Prod.fst h1) hat
        · exact h2

/-! ### Claim theorems: Token Authority -/

/-- C2 as stated is refuted at the expiry boundary: with a single token whose
expiry equals now, validation succeeds although no entry satisfies the claimed
strict bound now < expiresAt. -/
theorem C2_strict_expiry_counterexample :
    (verify_api_key [("t", (5 : ℤ))] 5 "t").2 = true ∧
    ¬ (∃ e : ℤ, List.lookup "t" [("t", (5 : ℤ))] = some e ∧ (5 : ℤ) < e) := by
  constructor
  · decide
  · rintro ⟨e, he, hlt⟩
    have h5 : List.lookup "t" [("t", (5 : ℤ))] = some 5 := by decide
    obtain rfl : (5 : ℤ) = e := by injection h5.symm.trans he
    omega

/-- C2 amended: for every state of the active-token set (duplicate-free, as a
dict is), validation of t succeeds iff t is present with now ≤ expiresAt(t);
validation immediately after issuing t succeeds regardless of the other
tokens; and validation fails once now > expiresAt(t). -/
theorem C2_token_validation_characterization
    (keys : KeyStore) (now : ℤ) (t : String)
    (hnd : (keys.map Prod.fst).Nodup) :
    ((verify_api_key keys now t).2 = true ↔
      ∃ e : ℤ, List.lookup t keys = some e ∧ now ≤ e) ∧
    (∀ issue_now : ℤ,
      (verify_api_key (generate_key keys t issue_now).1 issue_now t).2 = true) ∧
    (∀ e : ℤ, List.lookup t keys = some e → now > e →
      (verify_api_key keys now t).2 = false) := by
  refine ⟨?_, ?_, ?_⟩
  · rw [verify_valid_iff]
    constructor
    · rintro ⟨e, hmem, hle⟩
      exact ⟨e, (lookup_eq_some_iff_of_nodup t e keys hnd).mpr hmem, hle⟩
    · rintro ⟨e, hlk, hle⟩
      exact ⟨e, (lookup_eq_some_iff_of_nodup t e keys hnd).mp hlk, hle⟩
  · intro issue_now
    rw [verify_valid_iff]
    refine ⟨issue_now + KEY_EXPIRATION_MINUTES, by simp [generate_key], ?_⟩
    have h30 : KEY_EXPIRATION_MINUTES = 30 := rfl
    omega
  · intro e hlk hgt
    have hnot : ¬ ((verify_api_key keys now t).2 = true) := by
      rw [verify_valid_iff]
      rintro ⟨e', hmem', hle'⟩
      have hlk' : List.lookup t keys = some e' :=
        (lookup_eq_some_iff_of_nodup t e' keys hnd).mpr hmem'
      obtain rfl : e = e' := by injection hlk.symm.trans hlk'
      omega
    cases h : (verify_api_key keys now t).2
    · rfl
    · exact absurd h hnot

/-- Witness for C2: a token issued with expiry 10 validates at time 3. -/
theorem C2_token_validation_witness :
    (verify_api_key [("t", (10 : ℤ))] 3 "t").2 = true :=
  (C2_token_validation_characterization [("t", 10)] 3 "t" (by decide)).1.mpr
    ⟨10, by decide, by decide⟩

/-- C3: a token whose expiry equals now exactly is still accepted, and the
sweep removes only tokens whose expiry is strictly in the past. -/
theorem C3_boundary_token_accepted
    (keys : KeyStore) (now : ℤ) (t : String) (kv : String × ℤ)
    (hlk : List.lookup t keys = some now) :
    (verify_api_key keys now t).2 = true ∧
    (kv ∈ keys → kv ∉ sweep keys now → kv.2 < now) := by
  constructor
  · rw [verify_valid_iff]
    exact ⟨now, mem_of_lookup_eq_some t now keys hlk, le_refl now⟩
  · intro hmem hnot
    by_contra hlt
    exact hnot ((mem_sweep_iff keys now kv).mpr ⟨hmem, hlt⟩)

/-- Witness for C3: a token expiring exactly at the call instant validates. -/
theorem C3_boundary_token_witness :
    (verify_api_key [("t", (5 : ℤ))] 5 "t").2 = true :=
  (C3_boundary_token_accepted [("t", 5)] 5 "t" ("t", 5) (by decide)).1

/-- C4: every validation call first replaces the store by its sweep — exactly
the entries that are not strictly expired survive, none other is removed —
and only then tests membership of the presented key against the swept store. -/
theorem C4_sweep_exact_before_membership
    (keys : KeyStore) (now : ℤ) (t : String) (kv : String × ℤ) :
    (verify_api_key keys now t).1 = sweep keys now ∧
    (kv ∈ (verify_api_key keys now t).1 ↔ kv ∈ keys ∧ ¬ (kv.2 < now)) ∧
    (verify_api_key keys now t).2 =
      ((verify_api_key keys now t).1.any (fun p => p.1 == t)) := by
  exact ⟨rfl, mem_sweep_iff keys now kv, rfl⟩

/-- Witness for C4: the strictly expired token is gone after validation, the
live one is kept, and the presented key is judged on the swept store. -/
theorem C4_sweep_exact_witness :
    ("old", (1 : ℤ)) ∉ (verify_api_key [("old", (1 : ℤ)), ("live", 9)] 5 "live").1 ∧
    ("live", (9 : ℤ)) ∈ (verify_api_key [("old", (1 : ℤ)), ("live", 9)] 5 "live").1 := by
  constructor
  · intro hmem
    have h := (C4_sweep_exact_before_membership [("old", 1), ("live", 9)] 5 "live"
        ("old", 1)).2.1.mp hmem
    exact h.2 (by decide)
  · exact (C4_sweep_exact_before_membership [("old", 1), ("live", 9)] 5 "live"
        ("live", 9)).2.1.mpr (by constructor <;> decide)

/-! ### Claim theorems: Emissions Resolution Policy -/

/-- C1: for every scope and every Override Store state, both summary handlers
resolve emissions by the precedence disabled > manual > calculated:
estimation disabled gives (0, disabled) without consulting the store (the
result is the same for every store); otherwise a stored override for the
scope wins as user_entered when use_manual_override is on; otherwise the
calculated aggregation total is used. -/
theorem C1_emissions_resolution_precedence
    (gen_df : List GenRow) (em_df : List EmRow) (store : OverrideStore)
    (name : String) (hname : name ∈ known_counties gen_df) :
    (∀ b : Bool,
      (national_summary gen_df em_df store false b).total_emissions = 0 ∧
      (national_summary gen_df em_df store false b).emissions_source = "disabled" ∧
      county_insights gen_df em_df store name false b =
        .ok ⟨name, county_total_generation gen_df name, 0, "disabled"⟩ ∧
      (∀ store' : OverrideStore,
        national_summary gen_df em_df store' false b =
          national_summary gen_df em_df store false b ∧
        county_insights gen_df em_df store' name false b =
          county_insights gen_df em_df store name false b)) ∧
    (∀ v : ℚ, List.lookup "national" store = some v →
      (national_summary gen_df em_df store true true).total_emissions = v ∧
      (national_summary gen_df em_df store true true).emissions_source =
        "user_entered") ∧
    (∀ v : ℚ, List.lookup name store = some v →
      county_insights gen_df em_df store name true true =
        .ok ⟨name, county_total_generation gen_df name, v, "user_entered"⟩) ∧
    (∀ b : Bool, b = false ∨ List.lookup "national" store = none →
      (national_summary gen_df em_df store true b).total_emissions =
        national_total_emissions_calculated em_df ∧
      (national_summary gen_df em_df store true b).emissions_source =
        "calculated") ∧
    (∀ b : Bool, b = false ∨ List.lookup name store = none →
      county_insights gen_df em_df store name true b =
        .ok ⟨name, county_total_generation gen_df name,
              county_emissions_calculated em_df name, "calculated"⟩) := by
  have hc : ((known_counties gen_df).contains name) = true := by simpa using hname
  refine ⟨?_, ?_, ?_, ?_, ?_⟩
  · intro b
    refine ⟨by simp [national_summary], by simp [national_summary],
      by simp [county_insights, hc, hname], ?_⟩
    intro store'
    exact ⟨by simp [national_summary], by simp [county_insights, hc, hname]⟩
  · intro v hv
    constructor
    · simp [national_summary, hv]
    · simp [national_summary, hv]
  · intro v hv
    simp [county_insights, hc, hname, hv]
  · rintro b (rfl | hnone)
    · exact ⟨by simp [national_summary], by simp [national_summary]⟩
    · exact ⟨by simp [national_summary, hnone], by simp [national_summary, hnone]⟩
  · rintro b (rfl | hnone)
    · simp [county_insights, hc, hname]
    · simp [county_insights, hc, hname, hnone]

/-- Witness for C1: the spec's concrete Nairobi case — calculated 120,
override 56.7 = 567/10 stored, estimation and override enabled yields the
override as user_entered. -/
theorem C1_emissions_resolution_witness :
    county_insights [⟨"Nairobi", 10⟩] [⟨"Nairobi", 120⟩] [("Nairobi", 567/10)]
        "Nairobi" true true =
      .ok ⟨"Nairobi", 10, 567/10, "user_entered"⟩ := by
  have h := (C1_emissions_resolution_precedence [⟨"Nairobi", 10⟩]
      [⟨"Nairobi", 120⟩] [("Nairobi", 567/10)] "Nairobi"
      (by simp [known_counties])).2.2.1 (567/10) rfl
  rw [h]
  norm_num [county_total_generation]

/-! ### Claim theorems: Region summary errors -/

/-- C5 as stated is refuted on the auth side: with no valid token, the
unknown-region request is rejected 401 by the auth dependency — not with the
claimed not-found error — even though an override for that very name exists. -/
theorem C5_unknown_region_auth_counterexample :
    (county_request [] 0 "k" [] [] [("Atlantis", 5)] "Atlantis" true true).2 =
      Except.error 401 ∧
    ¬ ((county_request [] 0 "k" [] [] [("Atlantis", 5)] "Atlantis" true true).2 =
      Except.error 404) := by
  refine ⟨rfl, ?_⟩
  intro h
  have h401 : (county_request [] 0 "k" [] [] [("Atlantis", 5)] "Atlantis"
      true true).2 = Except.error 401 := rfl
  have : (401 : Nat) = 404 := by injection h401.symm.trans h
  exact absurd this (by decide)

/-- C5 amended: under a valid token, a request for a region outside the known
map fails 404 whatever override is stored for that name (even one stored for
that very unknown name), and no emissions resolution happens — the outcome
does not depend on the override store or the emissions table.  Under an
invalid token the request fails with 401 instead. -/
theorem C5_unknown_region_not_found
    (keys : KeyStore) (now : ℤ) (k : String)
    (gen_df : List GenRow) (em_df : List EmRow) (store : OverrideStore)
    (name : String) (e o : Bool)
    (hvalid : (verify_api_key keys now k).2 = true)
    (hunknown : name ∉ known_counties gen_df) :
    (county_request keys now k gen_df em_df store name e o).2 =
      Except.error 404 ∧
    (∀ (store' : OverrideStore) (em_df' : List EmRow),
      (county_request keys now k gen_df em_df' store' name e o).2 =
        Except.error 404) := by
  have hc : ((known_counties gen_df).contains name) = false := by
    simpa using hunknown
  constructor
  · simp [county_request, hvalid, county_insights, hc, hunknown]
  · intro store' em_df'
    simp [county_request, hvalid, county_insights, hc, hunknown]

/-- Witness for C5: valid token, unknown region "Atlantis" with an override
stored for it — the request still 404s. -/
theorem C5_unknown_region_witness :
    (county_request [("k", (10 : ℤ))] 0 "k" [] [] [("Atlantis", 5)] "Atlantis"
        true true).2 = Except.error 404 :=
  (C5_unknown_region_not_found [("k", 10)] 0 "k" [] [] [("Atlantis", 5)]
    "Atlantis" true true (by decide) (by decide)).1

/-! ### Claim theorems: Override Store writes -/

/-- C6: a negative override is rejected with 400 and the store is left exactly
as it was; a non-negative one is stored under the scope — all-or-nothing. -/
theorem C6_negative_override_all_or_nothing
    (store : OverrideStore) (scope : String) (v : ℚ) :
    (v < 0 → set_manual_emissions store scope v = (store, Except.error 400)) ∧
    (0 ≤ v → List.lookup scope (set_manual_emissions store scope v).1 = some v) := by
  constructor
  · intro hv
    simp [set_manual_emissions, hv]
  · intro hv
    simp [set_manual_emissions, not_lt.mpr hv, List.lookup_cons]

/-- Witness for C6: value -3 is rejected and the prior store survives intact;
value 2 for the same scope is stored. -/
theorem C6_negative_override_witness :
    set_manual_emissions [("national", 1)] "national" (-3) =
      ([("national", 1)], Except.error 400) ∧
    List.lookup "national" (set_manual_emissions [("national", 1)] "national" 2).1 =
      some 2 := by
  constructor
  · exact (C6_negative_override_all_or_nothing [("national", 1)] "national"
      (-3)).1 (by norm_num)
  · exact (C6_negative_override_all_or_nothing [("national", 1)] "national"
      2).2 (by norm_num)

/-! ### Claim theorems: Dataset loading and region enumeration -/

/-- C7 as stated is refuted: the loader fills a missing region with "" before
counties_data's dropna runs, so a null-region row is NOT excluded from the
enumeration — it appears as a region named "" — and the enumerated set is not
the distinct non-null identifiers of the raw table. -/
theorem C7_null_region_counterexample :
    known_counties (load_gen_csv_safe
        (some [⟨some "Nairobi", some 10⟩, ⟨none, some 5⟩])) ≠ ["Nairobi"] ∧
    "" ∈ known_counties (load_gen_csv_safe
        (some [⟨some "Nairobi", some 10⟩, ⟨none, some 5⟩])) := by
  constructor
  · simp [known_counties, load_gen_csv_safe, List.dedup]
  · simp [known_counties, load_gen_csv_safe]

/-- C7 amended: the enumerated regions are exactly the distinct region values
after the loader's null-to-"" normalization (so null-region rows are
enumerated, under the identifier ""), and every raw row — null region or not —
contributes its generation to the national total. -/
theorem C7_known_regions_after_normalization
    (raw : List RawGenRow) (name : String) :
    (name ∈ known_counties (load_gen_csv_safe (some raw)) ↔
      ∃ r ∈ raw, r.county.getD "" = name) ∧
    national_total_generation (load_gen_csv_safe (some raw)) =
      (raw.map (fun r => r.generation_mwh.getD 0)).sum := by
  constructor
  · simp [known_counties, load_gen_csv_safe]
  · simp only [national_total_generation, load_gen_csv_safe, List.map_map]
    rfl

/-- Witness for C7: a lone null-region row is enumerated as region "" and its
generation 5 is the national total. -/
theorem C7_known_regions_witness :
    "" ∈ known_counties (load_gen_csv_safe (some [⟨none, some 5⟩])) ∧
    national_total_generation (load_gen_csv_safe (some [⟨none, some 5⟩])) = 5 := by
  constructor
  · exact (C7_known_regions_after_normalization [⟨none, some 5⟩] "").1.mpr
      ⟨⟨none, some 5⟩, by simp, rfl⟩
  · rw [(C7_known_regions_after_normalization [⟨none, some 5⟩] "").2]
    simp

/-! ### Claim theorems: set-override confirmation shape -/

/-- C8 as stated is refuted: the success confirmation has fields status,
message and value only — the scope is not a field of the response (neither
string field equals the scope; it is only embedded inside the message text). -/
theorem C8_scope_not_a_field_counterexample :
    (set_manual_emissions [] "Nairobi" (567/10)).2 =
      Except.ok ⟨"success", "Manual emissions override set for Nairobi",
        567/10⟩ ∧
    ("success" : String) ≠ "Nairobi" ∧
    ("Manual emissions override set for Nairobi" : String) ≠ "Nairobi" := by
  refine ⟨?_, by decide, by decide⟩
  norm_num [set_manual_emissions]
  rfl

/-- C8 amended: for v ≥ 0 the confirmation carries the stored value as its
value field, while the scope is echoed only inside the human-readable message
string "Manual emissions override set for " ++ scope — not as its own field. -/
theorem C8_success_confirmation
    (store : OverrideStore) (scope : String) (v : ℚ) (hv : 0 ≤ v) :
    (set_manual_emissions store scope v).2 =
      Except.ok ⟨"success", "Manual emissions override set for " ++ scope, v⟩ := by
  simp [set_manual_emissions, not_lt.mpr hv]

/-- Witness for C8: the concrete confirmation for scope Nairobi, value 56.7. -/
theorem C8_success_confirmation_witness :
    (set_manual_emissions [] "Nairobi" (567/10)).2 =
      Except.ok ⟨"success", "Manual emissions override set for " ++ "Nairobi",
        567/10⟩ :=
  C8_success_confirmation [] "Nairobi" (567/10) (by norm_num)

/-! ### Claim theorems: missing-file degradation -/

/-- C9: a missing dataset file loads as the empty table (with the expected
columns present by construction), the national generation and calculated
emissions totals are then 0, the national handler answers normally with zero
totals, and no endpoint turns the missing file into an error — the county
handler can only 404 for an unknown name. -/
theorem C9_missing_file_degrades
    (b e o : Bool) (store : OverrideStore) (name : String) :
    load_gen_csv_safe none = [] ∧
    load_em_csv_safe none = [] ∧
    national_total_generation (load_gen_csv_safe none) = 0 ∧
    national_total_emissions_calculated (load_em_csv_safe none) = 0 ∧
    national_summary (load_gen_csv_safe none) (load_em_csv_safe none) [] true b =
      ⟨0, 0, "calculated", 131 / 2⟩ ∧
    county_insights (load_gen_csv_safe none) (load_em_csv_safe none) store name
        e o = Except.error 404 := by
  refine ⟨rfl, rfl, by simp [national_total_generation, load_gen_csv_safe],
    by simp [national_total_emissions_calculated, load_em_csv_safe], ?_, ?_⟩
  · simp [national_summary, load_gen_csv_safe, load_em_csv_safe,
      national_total_generation, national_total_emissions_calculated]
  · simp [county_insights, known_counties, load_gen_csv_safe]

/-! ### Claim theorems: zero override -/

/-- C10: an override of exactly 0 is accepted (only strictly negative values
are rejected), stored, and honored by resolution as (0, user_entered) by both
handlers; an absent override instead falls through to the calculated total,
so a zero override is observably distinct from no override. -/
theorem C10_zero_override_honored
    (store : OverrideStore) (scope : String)
    (gen_df : List GenRow) (em_df : List EmRow) (name : String)
    (hname : name ∈ known_counties gen_df) :
    (set_manual_emissions store scope 0).2 =
      Except.ok ⟨"success", "Manual emissions override set for " ++ scope, 0⟩ ∧
    List.lookup scope (set_manual_emissions store scope 0).1 = some 0 ∧
    ((national_summary gen_df em_df (set_manual_emissions store "national" 0).1
        true true).total_emissions = 0 ∧
     (national_summary gen_df em_df (set_manual_emissions store "national" 0).1
        true true).emissions_source = "user_entered") ∧
    (county_insights gen_df em_df (set_manual_emissions store name 0).1 name
        true true =
      Except.ok ⟨name, county_total_generation gen_df name, 0, "user_entered"⟩) ∧
    (List.lookup name store = none →
      county_insights gen_df em_df store name true true =
        Except.ok ⟨name, county_total_generation gen_df name,
          county_emissions_calculated em_df name, "calculated"⟩) := by
  have h00 : ¬ ((0 : ℚ) < 0) := lt_irrefl 0
  have hset : ∀ s : String,
      List.lookup s (set_manual_emissions store s 0).1 = some 0 := by
    intro s
    simp [set_manual_emissions, h00, List.lookup_cons]
  refine ⟨by simp [set_manual_emissions, h00], hset scope, ?_, ?_, ?_⟩
  · constructor
    · simp [national_summary, hset "national"]
    · simp [national_summary, hset "national"]
  · simp [county_insights, hname, hset name]
  · intro hnone
    simp [county_insights, hname, hnone]

/-- Witness for C10: zero override stored for Nairobi is reported back as
(0, user_entered) by the county handler. -/
theorem C10_zero_override_witness :
    county_insights [⟨"Nairobi", 10⟩] [⟨"Nairobi", 120⟩]
        (set_manual_emissions [] "Nairobi" 0).1 "Nairobi" true true =
      Except.ok ⟨"Nairobi", 10, 0, "user_entered"⟩ := by
  have h := (C10_zero_override_honored [] "Nairobi" [⟨"Nairobi", 10⟩]
      [⟨"Nairobi", 120⟩] "Nairobi" (by simp [known_counties])).2.2.2.1
  rw [h]
  norm_num [county_total_generation]
